import Mathlib

/-!
Verification development for `dev/perf/visualize_performance.py`: a batch
script that loads a CSV of benchmark samples, aggregates them by
(scenario, tool), renders charts, and writes a markdown report.

The numeric columns are modelled by `ℚ` (the script's float arithmetic on
means, maxima and the derived score is exact rational arithmetic on the
inputs considered here). The tabular data frame is modelled by a list of
`Sample` rows in file order; pandas boolean-mask filtering becomes
`List.filter`, `Series.unique()` becomes first-seen deduplication, and
`groupby`-free per-pair loops are translated loop-for-loop from the source.
Operating-system effects (file existence, `os.path.dirname`, `print`
streams, files written) are modelled explicitly as inputs and outputs of
`mainModel`.
-/

/-- One row of the benchmark CSV after loading (`load_data`): the columns
`scenario`, `tool`, `timestamp`, `duration_seconds`, `cpu_percent`,
`memory_mb`. The parsed timestamp is kept abstract as a string; it is never
used by the aggregation or the report. -/
structure Sample where
  scenario : String
  tool : String
  timestamp : String
  duration_seconds : ℚ
  cpu_percent : ℚ
  memory_mb : ℚ
deriving DecidableEq, Repr

/-- One entry of `summary_data` built in `create_performance_summary`
(lines 160–168 of the source): the dict with keys `scenario`, `tool`,
`avg_cpu`, `avg_memory`, `max_cpu`, `max_memory`, `performance_score`. -/
structure AggregateRow where
  scenario : String
  tool : String
  avg_cpu : ℚ
  avg_memory : ℚ
  max_cpu : ℚ
  max_memory : ℚ
  performance_score : ℚ
deriving DecidableEq, Repr

/-- `Series.mean()`: sum divided by length. (Only applied to non-empty
series by the source, which guards every call with an emptiness check;
on `[]` this yields `0/0 = 0` in `ℚ`.) -/
def mean (l : List ℚ) : ℚ := l.sum / l.length

/-- `Series.max()` on a non-empty series: maximum of the entries. (The
source only calls it on non-empty data; the `[]` case is arbitrary.) -/
def seriesMax : List ℚ → ℚ
  | [] => 0
  | x :: xs => xs.foldl max x

/-- `Series.unique()` (pandas): the distinct values in order of first
occurrence (each value appears once, at the position of its first
occurrence relative to the others). -/
def uniqueFirstSeen : List String → List String
  | [] => []
  | x :: xs => x :: (uniqueFirstSeen xs).filter (fun y => y != x)

/-- The fixed tool iteration order `['wake', 'stern']` used by every
per-tool loop in the script. -/
def toolOrder : List String := ["wake", "stern"]

/-- `df[(df['scenario'] == scenario) & (df['tool'] == tool)]`: the rows
matching one (scenario, tool) pair, in file order. -/
def scenarioToolRows (df : List Sample) (s t : String) : List Sample :=
  df.filter (fun r => r.scenario == s && r.tool == t)

/-- `df['scenario'].unique()`: the distinct scenario values of the table in
first-seen order. -/
def uniqueScenarios (df : List Sample) : List String :=
  uniqueFirstSeen (df.map Sample.scenario)

/-- The body of the double loop of `create_performance_summary`
(lines 153–168): for one (scenario, tool) pair, `none` when no rows match
(`tool_data.empty`), otherwise the appended summary dict. -/
def mkSummaryEntry (df : List Sample) (s t : String) : Option AggregateRow :=
  let tool_data := scenarioToolRows df s t
  if tool_data.isEmpty then none
  else
    let avg_cpu := mean (tool_data.map Sample.cpu_percent)
    let avg_memory := mean (tool_data.map Sample.memory_mb)
    let max_cpu := seriesMax (tool_data.map Sample.cpu_percent)
    let max_memory := seriesMax (tool_data.map Sample.memory_mb)
    some { scenario := s, tool := t, avg_cpu := avg_cpu, avg_memory := avg_memory,
           max_cpu := max_cpu, max_memory := max_memory,
           performance_score := avg_cpu + avg_memory / 10 }

/-- The `summary_data` list of `create_performance_summary`
(lines 150–170): for each first-seen scenario, for each tool in the fixed
order, the summary entry when the pair has matching rows. The plotting side
effects of the function consume this list and are not modelled. -/
def create_performance_summary (df : List Sample) : List AggregateRow :=
  (uniqueScenarios df).flatMap (fun s => toolOrder.filterMap (fun t => mkSummaryEntry df s t))

/-- `df[df['tool'] == tool]`: the rows with one tool label, in file order. -/
def toolRows (df : List Sample) (t : String) : List Sample :=
  df.filter (fun r => r.tool == t)

/-- Overall per-tool mean of one numeric column, as computed at lines
222–224 and 255–256, 268–269 of the source. -/
def toolAvg (df : List Sample) (t : String) (proj : Sample → ℚ) : ℚ :=
  mean ((toolRows df t).map proj)

/-- Overall per-tool maximum of one numeric column (lines 223, 225). -/
def toolMax (df : List Sample) (t : String) (proj : Sample → ℚ) : ℚ :=
  seriesMax ((toolRows df t).map proj)

/-- Python `f'\x7bx:.2f\x7d'`: fixed-point rendering with two decimals
(sign, integer digits, dot, two fraction digits). -/
def fmt2 (x : ℚ) : String :=
  let c : ℤ := round (x * 100)
  let n := c.natAbs
  (if c < 0 then "-" else "") ++ toString (n / 100) ++ "."
    ++ (if n % 100 < 10 then "0" else "") ++ toString (n % 100)

/-- Python `f'\x7bx:.1f\x7d'`: fixed-point rendering with one decimal. -/
def fmt1 (x : ℚ) : String :=
  let c : ℤ := round (x * 10)
  let n := c.natAbs
  (if c < 0 then "-" else "") ++ toString (n / 10) ++ "." ++ toString (n % 10)

/-- First character upper-cased, remainder lower-cased. -/
def capitalizeWord (s : String) : String :=
  match s.data with
  | [] => ""
  | c :: cs => String.mk (c.toUpper :: cs.map Char.toLower)

/-- Python `str.title()` on the labels occurring in this pipeline: each
space-separated word capitalized. -/
def pyTitle (s : String) : String :=
  String.intercalate " " ((s.splitOn " ").map capitalizeWord)

/-- The value of a numpy float expression as the script computes it: a
finite value (exact rational on the inputs considered), NaN, or a signed
infinity. The improvement percentages at lines 260, 263, 273, 276 are the
only places the script can leave the finite range, through a division whose
denominator is an average that may be exactly zero. -/
inductive FloatVal where
  | finite (q : ℚ)
  | nan
  | posInf
  | negInf
deriving DecidableEq, Repr

/-- Numpy-float evaluation of `(num / den) * 100` as written at lines
260, 263, 273 and 276: ordinary division when the denominator is nonzero;
`0.0 / 0.0` is NaN; division of a nonzero numerator by `0.0` is a signed
infinity (the factor 100 does not change NaN or the infinities). -/
def floatDivScaled (num den : ℚ) : FloatVal :=
  if den = 0 then
    if num = 0 then FloatVal.nan
    else if 0 < num then FloatVal.posInf
    else FloatVal.negInf
  else FloatVal.finite (num / den * 100)

/-- Python `f'...:.1f'` on such a value: fixed-point for finite values,
`nan`, `inf` and `-inf` otherwise. -/
def fmtFloatVal : FloatVal → String
  | FloatVal.finite q => fmt1 q
  | FloatVal.nan => "nan"
  | FloatVal.posInf => "inf"
  | FloatVal.negInf => "-inf"

/-- The CPU-efficiency insight of `create_detailed_report` (lines 254–265):
the winner name written into the report and the percentage improvement.
`wake_avg_cpu < stern_avg_cpu` names Wake, otherwise Stern; the improvement
is the numpy-float division of the winner's margin by the loser-side
average, which is NaN when both averages are exactly zero. -/
def cpuInsights (df : List Sample) : String × FloatVal :=
  let wake_avg_cpu := toolAvg df "wake" Sample.cpu_percent
  let stern_avg_cpu := toolAvg df "stern" Sample.cpu_percent
  if wake_avg_cpu < stern_avg_cpu then
    ("Wake", floatDivScaled (stern_avg_cpu - wake_avg_cpu) stern_avg_cpu)
  else
    ("Stern", floatDivScaled (wake_avg_cpu - stern_avg_cpu) wake_avg_cpu)

/-- The memory-efficiency insight (lines 267–278), same shape as
`cpuInsights` with the memory column. -/
def memInsights (df : List Sample) : String × FloatVal :=
  let wake_avg_mem := toolAvg df "wake" Sample.memory_mb
  let stern_avg_mem := toolAvg df "stern" Sample.memory_mb
  if wake_avg_mem < stern_avg_mem then
    ("Wake", floatDivScaled (stern_avg_mem - wake_avg_mem) stern_avg_mem)
  else
    ("Stern", floatDivScaled (wake_avg_mem - stern_avg_mem) wake_avg_mem)

/-- The data rows of the Overall Statistics table (lines 219–227): one row
per tool of `toolOrder` that has data, skipped silently otherwise. -/
def overallStatsLines (df : List Sample) : List String :=
  toolOrder.flatMap (fun tool =>
    let tool_data := toolRows df tool
    if tool_data.isEmpty then []
    else ["| " ++ pyTitle tool ++ " | " ++ fmt2 (mean (tool_data.map Sample.cpu_percent))
          ++ " | " ++ fmt2 (seriesMax (tool_data.map Sample.cpu_percent))
          ++ " | " ++ fmt2 (mean (tool_data.map Sample.memory_mb))
          ++ " | " ++ fmt2 (seriesMax (tool_data.map Sample.memory_mb)) ++ " |"])

/-- One scenario section of the Scenario Breakdown (lines 231–249). -/
def scenarioSectionLines (df : List Sample) (s : String) : List String :=
  ["### " ++ pyTitle s ++ " Scenario", "",
   "| Tool | Avg CPU (%) | Max CPU (%) | Avg Memory (MB) | Max Memory (MB) | Data Points |",
   "|------|-------------|-------------|-----------------|-----------------|-------------|"]
  ++ toolOrder.flatMap (fun tool =>
      let tool_data := scenarioToolRows df s tool
      if tool_data.isEmpty then []
      else ["| " ++ pyTitle tool ++ " | " ++ fmt2 (mean (tool_data.map Sample.cpu_percent))
            ++ " | " ++ fmt2 (seriesMax (tool_data.map Sample.cpu_percent))
            ++ " | " ++ fmt2 (mean (tool_data.map Sample.memory_mb))
            ++ " | " ++ fmt2 (seriesMax (tool_data.map Sample.memory_mb))
            ++ " | " ++ toString tool_data.length ++ " |"])
  ++ [""]

/-- The Performance Insights bullet lines (lines 265 and 278). -/
def insightsLines (df : List Sample) : List String :=
  ["- **CPU Efficiency Winner:** " ++ (cpuInsights df).1
     ++ " (by " ++ fmtFloatVal (cpuInsights df).2 ++ "%)",
   "- **Memory Efficiency Winner:** " ++ (memInsights df).1
     ++ " (by " ++ fmtFloatVal (memInsights df).2 ++ "%)"]

/-- The Data Quality bullet lines (lines 281–284): total row count, per-tool
row counts, scenario count. -/
def dataQualityLines (df : List Sample) : List String :=
  ["- **Total data points:** " ++ toString df.length,
   "- **Wake data points:** " ++ toString (toolRows df "wake").length,
   "- **Stern data points:** " ++ toString (toolRows df "stern").length,
   "- **Scenarios tested:** " ++ toString (uniqueScenarios df).length]

/-- Everything `create_detailed_report` writes after the generation
timestamp (lines 215–284), as markdown lines: a function of the table
alone. -/
def reportRest (df : List Sample) : List String :=
  ["## Overall Statistics", "",
   "| Tool | Avg CPU (%) | Max CPU (%) | Avg Memory (MB) | Max Memory (MB) |",
   "|------|-------------|-------------|-----------------|------------------|"]
  ++ overallStatsLines df
  ++ ["", "## Scenario Breakdown", ""]
  ++ (uniqueScenarios df).flatMap (scenarioSectionLines df)
  ++ ["## Performance Insights", ""]
  ++ insightsLines df
  ++ ["", "## Data Quality", ""]
  ++ dataQualityLines df

/-- The full markdown document written by `create_detailed_report`
(lines 206–284) as a list of lines: the title, a blank, the generation
timestamp line (the only line depending on the clock), a blank, and the
body `reportRest df`. -/
def create_detailed_report_lines (df : List Sample) (now : String) : List String :=
  "# Detailed Performance Analysis" :: "" :: ("**Generated:** " ++ now) :: "" :: reportRest df

/-- Where a message written by the script's `print` calls goes. Every
`print(...)` in the source uses the default file argument, i.e. the
standard output stream. -/
inductive OutStream where
  | stdout
  | stderr
deriving DecidableEq, Repr

/-- The observable outcome of one run of `main`: exit status, printed
messages in order with their stream, whether the output directory was
ensured to exist (`os.makedirs(..., exist_ok=True)`), the output directory
chosen, and the output files written. -/
structure RunResult where
  exitCode : Nat
  messages : List (OutStream × String)
  dirEnsured : Bool
  outputDir : Option String
  filesWritten : List String
deriving DecidableEq, Repr

/-- Output-directory selection of `main` (lines 300–306):
`if args.output_dir:` takes the flag's value only when it is a non-empty
string (Python truthiness); otherwise `os.path.dirname(csv_file)`, and `.`
when that is empty. `csvDirname` stands for the value of
`os.path.dirname(args.csv_file)`. -/
def outputDirOf (outDirArg : Option String) (csvDirname : String) : String :=
  match outDirArg with
  | some d => if d = "" then (if csvDirname = "" then "." else csvDirname) else d
  | none => if csvDirname = "" then "." else csvDirname

/-- The messages printed on a fully successful run (lines 311–330, plus the
per-chart confirmation prints inside the four generation functions); the
renderings of the pandas unique-value arrays are abstracted by the list
rendering of the first-seen distinct values. -/
def successMessages (csvFile : String) (df : List Sample) (output_dir : String) :
    List (OutStream × String) :=
  [(OutStream.stdout, "Loading benchmark data from: " ++ csvFile),
   (OutStream.stdout, "Loaded " ++ toString df.length ++ " data points"),
   (OutStream.stdout, "Tools: " ++ toString (uniqueFirstSeen (df.map Sample.tool))),
   (OutStream.stdout, "Scenarios: " ++ toString (uniqueScenarios df)),
   (OutStream.stdout, "Generating visualizations..."),
   (OutStream.stdout, "CPU comparison chart saved to: " ++ output_dir ++ "/cpu_comparison.png"),
   (OutStream.stdout, "Memory comparison chart saved to: " ++ output_dir ++ "/memory_comparison.png"),
   (OutStream.stdout, "Performance summary chart saved to: " ++ output_dir ++ "/performance_summary.png"),
   (OutStream.stdout, "Detailed analysis report saved to: " ++ output_dir ++ "/detailed_analysis.md"),
   (OutStream.stdout, "All visualizations saved to: " ++ output_dir),
   (OutStream.stdout, "Generated files:"),
   (OutStream.stdout, "- cpu_comparison.png"),
   (OutStream.stdout, "- memory_comparison.png"),
   (OutStream.stdout, "- performance_summary.png"),
   (OutStream.stdout, "- detailed_analysis.md")]

/-- `main` (lines 288–330) with the operating system made explicit:
`fileExists` is `os.path.exists(args.csv_file)`, `csvDirname` is
`os.path.dirname(args.csv_file)`, and `loadOutcome` is what
`pd.read_csv` + timestamp parsing produce (`Except.error e` when they
raise, carrying the exception text). The early exit on a missing file
(lines 296–298) happens before the output directory is determined or
created; `load_data` runs after `os.makedirs` (line 309 before line 312),
so a load failure leaves the directory created but writes no files, prints
`Error loading data: ...` via `print` (standard output, line 27 of the
source) and exits with status 1 (line 28). -/
def mainModel (csvFile csvDirname : String) (fileExists : Bool)
    (loadOutcome : Except String (List Sample)) (outDirArg : Option String) : RunResult :=
  if fileExists = false then
    { exitCode := 1,
      messages := [(OutStream.stdout, "Error: CSV file not found: " ++ csvFile)],
      dirEnsured := false, outputDir := none, filesWritten := [] }
  else
    let output_dir := outputDirOf outDirArg csvDirname
    match loadOutcome with
    | Except.error e =>
      { exitCode := 1,
        messages := [(OutStream.stdout, "Loading benchmark data from: " ++ csvFile),
                     (OutStream.stdout, "Error loading data: " ++ e)],
        dirEnsured := true, outputDir := some output_dir, filesWritten := [] }
    | Except.ok df =>
      { exitCode := 0,
        messages := successMessages csvFile df output_dir,
        dirEnsured := true, outputDir := some output_dir,
        filesWritten := [output_dir ++ "/cpu_comparison.png",
                         output_dir ++ "/memory_comparison.png",
                         output_dir ++ "/performance_summary.png",
                         output_dir ++ "/detailed_analysis.md"] }

/-- A one-row table used to instantiate hypotheses at concrete inputs. -/
def dfOneWake : List Sample :=
  [{ scenario := "a", tool := "wake", timestamp := "t0",
     duration_seconds := 0, cpu_percent := 10, memory_mb := 20 }]

/-- A two-row table on which the two tools have exactly equal average CPU
and equal average memory. -/
def dfTie : List Sample :=
  [{ scenario := "s1", tool := "wake", timestamp := "t0",
     duration_seconds := 0, cpu_percent := 10, memory_mb := 5 },
   { scenario := "s1", tool := "stern", timestamp := "t1",
     duration_seconds := 1, cpu_percent := 10, memory_mb := 5 }]

/-- A two-row table on which wake has the strictly lower average CPU and
stern the strictly lower average memory. -/
def dfDiff : List Sample :=
  [{ scenario := "s1", tool := "wake", timestamp := "t0",
     duration_seconds := 0, cpu_percent := 10, memory_mb := 30 },
   { scenario := "s1", tool := "stern", timestamp := "t1",
     duration_seconds := 1, cpu_percent := 20, memory_mb := 6 }]

/-- A sample whose tool label is neither of the two known labels. -/
def sampleOtherTool : Sample :=
  { scenario := "s1", tool := "kubetail", timestamp := "t2",
    duration_seconds := 2, cpu_percent := 100, memory_mb := 100 }

/-- A two-row table on which both tools are present and both metric
columns are identically zero, so both overall averages are exactly `0`. -/
def dfZeroTie : List Sample :=
  [{ scenario := "s1", tool := "wake", timestamp := "t0",
     duration_seconds := 0, cpu_percent := 0, memory_mb := 0 },
   { scenario := "s1", tool := "stern", timestamp := "t1",
     duration_seconds := 1, cpu_percent := 0, memory_mb := 0 }]

/-- Position of the first sample with a given scenario value: the rank of
the scenario in the order scenarios first appear in the table. -/
def scenarioFirstIdx (df : List Sample) (s : String) : Nat :=
  (df.map Sample.scenario).indexOf s

/-- Membership in the first-seen deduplication is membership in the
original list. -/
lemma mem_uniqueFirstSeen {a : String} : ∀ {l : List String}, a ∈ uniqueFirstSeen l ↔ a ∈ l
  | [] => by simp [uniqueFirstSeen]
  | x :: xs => by
    by_cases hax : a = x
    · simp [uniqueFirstSeen, hax]
    · simp [uniqueFirstSeen, List.mem_filter, bne_iff_ne, hax,
        mem_uniqueFirstSeen (l := xs)]

/-- The first-seen deduplication has no duplicates. -/
lemma nodup_uniqueFirstSeen : ∀ (l : List String), (uniqueFirstSeen l).Nodup
  | [] => by simp [uniqueFirstSeen]
  | x :: xs => by
    refine List.Nodup.cons ?_ ((nodup_uniqueFirstSeen xs).filter _)
    intro hx
    rcases List.mem_filter.mp hx with ⟨-, hne⟩
    exact absurd rfl (bne_iff_ne.mp hne)

/-- A summary entry is skipped exactly when no rows match the pair. -/
lemma mkSummaryEntry_eq_none_iff (df : List Sample) (s t : String) :
    mkSummaryEntry df s t = none ↔ (scenarioToolRows df s t).isEmpty := by
  unfold mkSummaryEntry
  by_cases h : (scenarioToolRows df s t).isEmpty <;> simp [h]

/-- The fields of a produced summary entry, read off its construction. -/
lemma mkSummaryEntry_some_fields {df : List Sample} {s t : String} {row : AggregateRow}
    (h : mkSummaryEntry df s t = some row) :
    row.scenario = s ∧ row.tool = t
    ∧ row.avg_cpu = mean ((scenarioToolRows df s t).map Sample.cpu_percent)
    ∧ row.avg_memory = mean ((scenarioToolRows df s t).map Sample.memory_mb)
    ∧ row.max_cpu = seriesMax ((scenarioToolRows df s t).map Sample.cpu_percent)
    ∧ row.max_memory = seriesMax ((scenarioToolRows df s t).map Sample.memory_mb)
    ∧ row.performance_score = row.avg_cpu + row.avg_memory / 10 := by
  unfold mkSummaryEntry at h
  by_cases he : (scenarioToolRows df s t).isEmpty
  · simp [he] at h
  · simp only [he, if_false] at h
    cases h
    simp

/-- C2: every `AggregateRow` produced by the aggregation of
`create_performance_summary` has `performance_score = avg_cpu +
avg_memory / 10`, where `avg_cpu` and `avg_memory` are the means of
`cpu_percent` and `memory_mb` over the samples matching the row's
(scenario, tool) pair. -/
theorem c2_performance_score (df : List Sample) (row : AggregateRow)
    (h : row ∈ create_performance_summary df) :
    row.performance_score = row.avg_cpu + row.avg_memory / 10
    ∧ row.avg_cpu = mean ((scenarioToolRows df row.scenario row.tool).map Sample.cpu_percent)
    ∧ row.avg_memory
      = mean ((scenarioToolRows df row.scenario row.tool).map Sample.memory_mb) := by
  unfold create_performance_summary at h
  rw [List.mem_flatMap] at h
  obtain ⟨s, -, h⟩ := h
  rw [List.mem_filterMap] at h
  obtain ⟨t, -, h⟩ := h
  obtain ⟨h1, h2, h3, h4, -, -, h7⟩ := mkSummaryEntry_some_fields h
  rw [h1, h2]
  exact ⟨h7, h3, h4⟩

/-- C2 witness: the theorem applied to a concrete table and its concrete
summary row. -/
theorem c2_performance_score_witness :
    (AggregateRow.mk "a" "wake" 10 20 10 20 12).performance_score
      = (AggregateRow.mk "a" "wake" 10 20 10 20 12).avg_cpu
        + (AggregateRow.mk "a" "wake" 10 20 10 20 12).avg_memory / 10
    ∧ (AggregateRow.mk "a" "wake" 10 20 10 20 12).avg_cpu
      = mean ((scenarioToolRows dfOneWake "a" "wake").map Sample.cpu_percent)
    ∧ (AggregateRow.mk "a" "wake" 10 20 10 20 12).avg_memory
      = mean ((scenarioToolRows dfOneWake "a" "wake").map Sample.memory_mb) := by
  have e : create_performance_summary dfOneWake = [AggregateRow.mk "a" "wake" 10 20 10 20 12] := by
    simp [create_performance_summary, uniqueScenarios, uniqueFirstSeen, toolOrder, mkSummaryEntry,
      scenarioToolRows, mean, seriesMax, dfOneWake]
    norm_num
  exact c2_performance_score dfOneWake (AggregateRow.mk "a" "wake" 10 20 10 20 12)
    (e ▸ List.mem_singleton.mpr rfl)

/-- C5: when the CSV path names no existing file, the run exits with
status 1, writes no output files, and never creates (or even chooses) an
output directory — the existence check at lines 296–298 precedes both the
directory computation and `os.makedirs`. -/
theorem c5_missing_file (csvFile csvDirname : String)
    (loadOutcome : Except String (List Sample)) (outDirArg : Option String) :
    (mainModel csvFile csvDirname false loadOutcome outDirArg).exitCode = 1
    ∧ (mainModel csvFile csvDirname false loadOutcome outDirArg).filesWritten = []
    ∧ (mainModel csvFile csvDirname false loadOutcome outDirArg).dirEnsured = false
    ∧ (mainModel csvFile csvDirname false loadOutcome outDirArg).outputDir = none := by
  simp [mainModel]

/-- C6: the markdown report is a deterministic function of the input table
once the generation-timestamp line (line index 2 of the document) is
removed: two runs at different clock readings agree on every other line.
All other pipeline stages are plain functions of the table in this
development, so their determinism is definitional. -/
theorem c6_report_deterministic (df : List Sample) (t1 t2 : String) :
    (create_detailed_report_lines df t1).eraseIdx 2
      = (create_detailed_report_lines df t2).eraseIdx 2 := rfl

/-- C7 (amended): on an input error — missing file or failed load/parse —
the run exits with status 1, writes no output files, and reports a
human-readable message that includes the underlying cause on standard
output (every `print` in the source writes to standard output; nothing is
sent to standard error). -/
theorem c7_error_reporting (csvFile csvDirname cause : String)
    (loadOutcome : Except String (List Sample)) (outDirArg : Option String) :
    ((mainModel csvFile csvDirname true (Except.error cause) outDirArg).exitCode = 1
     ∧ (mainModel csvFile csvDirname true (Except.error cause) outDirArg).filesWritten = []
     ∧ (OutStream.stdout, "Error loading data: " ++ cause)
         ∈ (mainModel csvFile csvDirname true (Except.error cause) outDirArg).messages
     ∧ ((mainModel csvFile csvDirname true (Except.error cause) outDirArg).messages.all
          (fun m => m.1 == OutStream.stdout)) = true)
    ∧ ((mainModel csvFile csvDirname false loadOutcome outDirArg).exitCode = 1
     ∧ (mainModel csvFile csvDirname false loadOutcome outDirArg).filesWritten = []
     ∧ (OutStream.stdout, "Error: CSV file not found: " ++ csvFile)
         ∈ (mainModel csvFile csvDirname false loadOutcome outDirArg).messages
     ∧ ((mainModel csvFile csvDirname false loadOutcome outDirArg).messages.all
          (fun m => m.1 == OutStream.stdout)) = true) := by
  constructor <;> simp [mainModel]

/-- C7 counterexample: on a concrete unparseable input the error report
goes to standard output — no message is ever written to standard error,
contradicting the claim that input errors are reported to standard
error. -/
theorem c7_counterexample :
    (mainModel "bench.csv" "" true (Except.error "could not parse timestamp") none).messages
      = [(OutStream.stdout, "Loading benchmark data from: bench.csv"),
         (OutStream.stdout, "Error loading data: could not parse timestamp")]
    ∧ OutStream.stdout ≠ OutStream.stderr
    ∧ (mainModel "bench.csv" "" true (Except.error "could not parse timestamp") none).exitCode = 1
    ∧ (mainModel "bench.csv" "" true
        (Except.error "could not parse timestamp") none).filesWritten = [] := by
  refine ⟨by simp [mainModel, outputDirOf], by decide, by simp [mainModel], by simp [mainModel]⟩

/-- C9 (amended): the output directory is the flag's value when the flag is
present with a non-empty value; otherwise (flag absent, or present but
empty — Python `if args.output_dir:` treats the empty string as absent) it
is the CSV's directory, or `.` when the CSV path has no directory
component; and on any run that passes the existence check the directory is
ensured to exist. -/
theorem c9_output_dir (csvFile csvDirname : String)
    (loadOutcome : Except String (List Sample)) (outDirArg : Option String) :
    ((∀ d : String, outDirArg = some d → d ≠ "" → outputDirOf outDirArg csvDirname = d)
     ∧ ((outDirArg = none ∨ outDirArg = some "") →
          outputDirOf outDirArg csvDirname = (if csvDirname = "" then "." else csvDirname)))
    ∧ (mainModel csvFile csvDirname true loadOutcome outDirArg).outputDir
        = some (outputDirOf outDirArg csvDirname)
    ∧ (mainModel csvFile csvDirname true loadOutcome outDirArg).dirEnsured = true := by
  refine ⟨⟨?_, ?_⟩, ?_, ?_⟩
  · rintro d rfl hd
    simp [outputDirOf, hd]
  · rintro (rfl | rfl) <;> simp [outputDirOf]
  · cases loadOutcome <;> simp [mainModel]
  · cases loadOutcome <;> simp [mainModel]

/-- C9 witness: the theorem applied at a run with the flag set to `out`
and at a run with no flag and CSV directory `data`. -/
theorem c9_output_dir_witness :
    outputDirOf (some "out") "data" = "out"
    ∧ outputDirOf none "data" = (if ("data" : String) = "" then "." else "data")
    ∧ (mainModel "data/bench.csv" "data" true (Except.ok []) (some "out")).outputDir
        = some (outputDirOf (some "out") "data")
    ∧ (mainModel "data/bench.csv" "data" true (Except.ok []) (some "out")).dirEnsured = true := by
  obtain ⟨⟨h1, -⟩, h3, h4⟩ := c9_output_dir "data/bench.csv" "data" (Except.ok []) (some "out")
  obtain ⟨⟨-, h2⟩, -, -⟩ := c9_output_dir "data/bench.csv" "data" (Except.ok []) none
  exact ⟨h1 "out" rfl (by decide), h2 (Or.inl rfl), h3, h4⟩

/-- C9 counterexample: with the flag present but equal to the empty string
and the CSV in directory `data`, the directory used is `data`, not the
flag's value — the flag being present does not suffice. -/
theorem c9_counterexample :
    (mainModel "data/bench.csv" "data" true (Except.ok []) (some "")).outputDir = some "data"
    ∧ outputDirOf (some "") "data" = "data"
    ∧ ("data" : String) ≠ "" := by
  refine ⟨by simp [mainModel, outputDirOf], by simp [outputDirOf], by decide⟩

/-- C10 (amended): when the two tools' overall averages of a metric are
exactly equal, the strict `<` at lines 258 and 271 fails and the `else`
branch names Stern the winner; the improvement
`(avg - avg) / avg * 100 = 0.0 / avg * 100` is `0` when the common average
is nonzero, but NaN when the common average is exactly zero, because the
program then computes `0.0 / 0.0` on floats. -/
theorem c10_tie_goes_to_stern (df : List Sample)
    (hw : toolRows df "wake" ≠ []) (hs : toolRows df "stern" ≠ []) :
    (toolAvg df "wake" Sample.cpu_percent = toolAvg df "stern" Sample.cpu_percent →
       (cpuInsights df).1 = "Stern"
       ∧ (toolAvg df "wake" Sample.cpu_percent ≠ 0 →
            (cpuInsights df).2 = FloatVal.finite 0)
       ∧ (toolAvg df "wake" Sample.cpu_percent = 0 →
            (cpuInsights df).2 = FloatVal.nan))
    ∧ (toolAvg df "wake" Sample.memory_mb = toolAvg df "stern" Sample.memory_mb →
       (memInsights df).1 = "Stern"
       ∧ (toolAvg df "wake" Sample.memory_mb ≠ 0 →
            (memInsights df).2 = FloatVal.finite 0)
       ∧ (toolAvg df "wake" Sample.memory_mb = 0 →
            (memInsights df).2 = FloatVal.nan)) := by
  constructor
  · intro h
    refine ⟨by simp [cpuInsights, h], ?_, ?_⟩
    · intro hnz
      rw [h] at hnz
      simp [cpuInsights, h, floatDivScaled, hnz]
    · intro hz
      rw [h] at hz
      simp [cpuInsights, h, floatDivScaled, hz]
  · intro h
    refine ⟨by simp [memInsights, h], ?_, ?_⟩
    · intro hnz
      rw [h] at hnz
      simp [memInsights, h, floatDivScaled, hnz]
    · intro hz
      rw [h] at hz
      simp [memInsights, h, floatDivScaled, hz]

/-- C10 witness: on `dfTie` both averages tie at the nonzero value and both
winners are Stern with a finite 0% improvement. -/
theorem c10_tie_goes_to_stern_witness :
    (cpuInsights dfTie).1 = "Stern" ∧ (cpuInsights dfTie).2 = FloatVal.finite 0
    ∧ (memInsights dfTie).1 = "Stern" ∧ (memInsights dfTie).2 = FloatVal.finite 0 := by
  obtain ⟨h1, h2⟩ := c10_tie_goes_to_stern dfTie (by decide) (by decide)
  have hc : toolAvg dfTie "wake" Sample.cpu_percent
      = toolAvg dfTie "stern" Sample.cpu_percent := by
    simp [toolAvg, toolRows, dfTie, mean]
  have hm : toolAvg dfTie "wake" Sample.memory_mb
      = toolAvg dfTie "stern" Sample.memory_mb := by
    simp [toolAvg, toolRows, dfTie, mean]
  have hcz : toolAvg dfTie "wake" Sample.cpu_percent ≠ 0 := by
    simp [toolAvg, toolRows, dfTie, mean]
  have hmz : toolAvg dfTie "wake" Sample.memory_mb ≠ 0 := by
    simp [toolAvg, toolRows, dfTie, mean]
  obtain ⟨ha, hb, -⟩ := h1 hc
  obtain ⟨hd, he, -⟩ := h2 hm
  exact ⟨ha, hb hcz, hd, he hmz⟩

/-- C10 counterexample: on `dfZeroTie` both tools are present and the
overall average CPU values tie at exactly `0`; the report names Stern the
winner, but the improvement is NaN — rendered `nan%` — not 0%, because the
program computes `0.0 / 0.0`. -/
theorem c10_counterexample :
    toolRows dfZeroTie "wake" ≠ [] ∧ toolRows dfZeroTie "stern" ≠ []
    ∧ toolAvg dfZeroTie "wake" Sample.cpu_percent
        = toolAvg dfZeroTie "stern" Sample.cpu_percent
    ∧ (cpuInsights dfZeroTie).1 = "Stern"
    ∧ (cpuInsights dfZeroTie).2 = FloatVal.nan
    ∧ FloatVal.nan ≠ FloatVal.finite 0
    ∧ insightsLines dfZeroTie
        = ["- **CPU Efficiency Winner:** Stern (by nan%)",
           "- **Memory Efficiency Winner:** Stern (by nan%)"] := by
  have hw0 : toolAvg dfZeroTie "wake" Sample.cpu_percent = 0 := by
    simp [toolAvg, toolRows, dfZeroTie, mean]
  have hs0 : toolAvg dfZeroTie "stern" Sample.cpu_percent = 0 := by
    simp [toolAvg, toolRows, dfZeroTie, mean]
  have hwm : toolAvg dfZeroTie "wake" Sample.memory_mb = 0 := by
    simp [toolAvg, toolRows, dfZeroTie, mean]
  have hsm : toolAvg dfZeroTie "stern" Sample.memory_mb = 0 := by
    simp [toolAvg, toolRows, dfZeroTie, mean]
  refine ⟨by decide, by decide, by rw [hw0, hs0], ?_, ?_, by decide, ?_⟩
  · simp [cpuInsights, hw0, hs0, floatDivScaled]
  · simp [cpuInsights, hw0, hs0, floatDivScaled]
  · simp [insightsLines, cpuInsights, memInsights, hw0, hs0, hwm, hsm,
      floatDivScaled, fmtFloatVal]

/-- C3 (amended): for a table containing samples of both tools whose
overall averages of a metric differ, the efficiency winner named in the
report is exactly the tool with the strictly lower overall average of that
metric. -/
theorem c3_efficiency_winner (df : List Sample)
    (hw : toolRows df "wake" ≠ []) (hs : toolRows df "stern" ≠ []) :
    (toolAvg df "wake" Sample.cpu_percent ≠ toolAvg df "stern" Sample.cpu_percent →
      (((cpuInsights df).1 = "Wake")
          ↔ toolAvg df "wake" Sample.cpu_percent < toolAvg df "stern" Sample.cpu_percent)
      ∧ (((cpuInsights df).1 = "Stern")
          ↔ toolAvg df "stern" Sample.cpu_percent < toolAvg df "wake" Sample.cpu_percent))
    ∧ (toolAvg df "wake" Sample.memory_mb ≠ toolAvg df "stern" Sample.memory_mb →
      (((memInsights df).1 = "Wake")
          ↔ toolAvg df "wake" Sample.memory_mb < toolAvg df "stern" Sample.memory_mb)
      ∧ (((memInsights df).1 = "Stern")
          ↔ toolAvg df "stern" Sample.memory_mb < toolAvg df "wake" Sample.memory_mb)) := by
  constructor
  · intro hne
    by_cases hlt : toolAvg df "wake" Sample.cpu_percent < toolAvg df "stern" Sample.cpu_percent
    · refine ⟨by simp [cpuInsights, hlt], ?_⟩
      have hgt : ¬ toolAvg df "stern" Sample.cpu_percent < toolAvg df "wake" Sample.cpu_percent :=
        lt_asymm hlt
      simp [cpuInsights, hlt, hgt]
    · have hgt : toolAvg df "stern" Sample.cpu_percent < toolAvg df "wake" Sample.cpu_percent :=
        lt_of_le_of_ne (not_lt.mp hlt) (Ne.symm hne)
      refine ⟨?_, by simp [cpuInsights, hlt, hgt]⟩
      simp [cpuInsights, hlt]
  · intro hne
    by_cases hlt : toolAvg df "wake" Sample.memory_mb < toolAvg df "stern" Sample.memory_mb
    · refine ⟨by simp [memInsights, hlt], ?_⟩
      have hgt : ¬ toolAvg df "stern" Sample.memory_mb < toolAvg df "wake" Sample.memory_mb :=
        lt_asymm hlt
      simp [memInsights, hlt, hgt]
    · have hgt : toolAvg df "stern" Sample.memory_mb < toolAvg df "wake" Sample.memory_mb :=
        lt_of_le_of_ne (not_lt.mp hlt) (Ne.symm hne)
      refine ⟨?_, by simp [memInsights, hlt, hgt]⟩
      simp [memInsights, hlt]

/-- C3 counterexample: on `dfTie` both tools are present and their overall
average CPU values are exactly equal, yet the report names Stern the CPU
efficiency winner — a winner is named although neither tool's average is
strictly lower than the other's, so the claim as stated fails on ties. -/
theorem c3_efficiency_winner_counterexample :
    toolRows dfTie "wake" ≠ [] ∧ toolRows dfTie "stern" ≠ []
    ∧ toolAvg dfTie "wake" Sample.cpu_percent = toolAvg dfTie "stern" Sample.cpu_percent
    ∧ (cpuInsights dfTie).1 = "Stern"
    ∧ ¬ (toolAvg dfTie "stern" Sample.cpu_percent < toolAvg dfTie "wake" Sample.cpu_percent) := by
  refine ⟨by decide, by decide, ?_, ?_, ?_⟩
  · simp [toolAvg, toolRows, dfTie, mean]
  · have h : toolAvg dfTie "wake" Sample.cpu_percent
        = toolAvg dfTie "stern" Sample.cpu_percent := by
      simp [toolAvg, toolRows, dfTie, mean]
    simp [cpuInsights, h]
  · have h : toolAvg dfTie "wake" Sample.cpu_percent
        = toolAvg dfTie "stern" Sample.cpu_percent := by
      simp [toolAvg, toolRows, dfTie, mean]
    simp [h]

/-- C3 witness: on `dfDiff` the averages differ; the theorem yields that
Wake (lower average CPU) is the CPU winner and Stern (lower average
memory) the memory winner. -/
theorem c3_efficiency_winner_witness :
    (cpuInsights dfDiff).1 = "Wake" ∧ (memInsights dfDiff).1 = "Stern" := by
  have hwc : toolAvg dfDiff "wake" Sample.cpu_percent = 10 := by
    simp [toolAvg, toolRows, dfDiff, mean]
  have hsc : toolAvg dfDiff "stern" Sample.cpu_percent = 20 := by
    simp [toolAvg, toolRows, dfDiff, mean]
  have hwm : toolAvg dfDiff "wake" Sample.memory_mb = 30 := by
    simp [toolAvg, toolRows, dfDiff, mean]
  have hsm : toolAvg dfDiff "stern" Sample.memory_mb = 6 := by
    simp [toolAvg, toolRows, dfDiff, mean]
  obtain ⟨hcpu, hmem⟩ := c3_efficiency_winner dfDiff (by decide) (by decide)
  constructor
  · exact (hcpu (by rw [hwc, hsc]; norm_num)).1.mpr (by rw [hwc, hsc]; norm_num)
  · exact (hmem (by rw [hwm, hsm]; norm_num)).2.mpr (by rw [hwm, hsm]; norm_num)

/-- Appending a row with a different tool label leaves a per-tool filter
unchanged. -/
lemma toolRows_append_of_ne {r : Sample} {t : String} (h : r.tool ≠ t) (df : List Sample) :
    toolRows (df ++ [r]) t = toolRows df t := by
  simp [toolRows, List.filter_append, h]

/-- Appending a row with a different tool label leaves every per-pair
filter for that tool unchanged. -/
lemma scenarioToolRows_append_of_ne {r : Sample} {t : String} (h : r.tool ≠ t)
    (df : List Sample) (s : String) :
    scenarioToolRows (df ++ [r]) s t = scenarioToolRows df s t := by
  simp [scenarioToolRows, List.filter_append, h]

/-- C4: a row whose tool label is neither `wake` nor `stern` is excluded
from every per-tool filter of the report — hence from every per-tool
average, maximum and row count, overall and per scenario — while the Data
Quality section still counts it in the total data-point figure. No error is
raised: every report computation is total on such tables. -/
theorem c4_unrecognized_tool (df : List Sample) (r : Sample)
    (h1 : r.tool ≠ "wake") (h2 : r.tool ≠ "stern") :
    toolRows (df ++ [r]) "wake" = toolRows df "wake"
    ∧ toolRows (df ++ [r]) "stern" = toolRows df "stern"
    ∧ (∀ s : String, scenarioToolRows (df ++ [r]) s "wake" = scenarioToolRows df s "wake"
         ∧ scenarioToolRows (df ++ [r]) s "stern" = scenarioToolRows df s "stern")
    ∧ overallStatsLines (df ++ [r]) = overallStatsLines df
    ∧ (∀ s : String, scenarioSectionLines (df ++ [r]) s = scenarioSectionLines df s)
    ∧ cpuInsights (df ++ [r]) = cpuInsights df
    ∧ memInsights (df ++ [r]) = memInsights df
    ∧ dataQualityLines (df ++ [r])
        = ["- **Total data points:** " ++ toString (df.length + 1),
           "- **Wake data points:** " ++ toString (toolRows df "wake").length,
           "- **Stern data points:** " ++ toString (toolRows df "stern").length,
           "- **Scenarios tested:** "
             ++ toString (uniqueScenarios (df ++ [r])).length] := by
  have hw := toolRows_append_of_ne h1 df
  have hs := toolRows_append_of_ne h2 df
  refine ⟨hw, hs,
    fun s => ⟨scenarioToolRows_append_of_ne h1 df s, scenarioToolRows_append_of_ne h2 df s⟩,
    ?_, ?_, ?_, ?_, ?_⟩
  · simp only [overallStatsLines, toolOrder, List.flatMap_cons, List.flatMap_nil, hw, hs]
  · intro s
    simp only [scenarioSectionLines, toolOrder, List.flatMap_cons, List.flatMap_nil,
      scenarioToolRows_append_of_ne h1 df s, scenarioToolRows_append_of_ne h2 df s]
  · simp only [cpuInsights, toolAvg, hw, hs]
  · simp only [memInsights, toolAvg, hw, hs]
  · simp [dataQualityLines, hw, hs]

/-- C4 witness: the theorem applied to a concrete table extended by a
row labelled `kubetail`. -/
theorem c4_unrecognized_tool_witness :
    toolRows (dfTie ++ [sampleOtherTool]) "wake" = toolRows dfTie "wake"
    ∧ toolRows (dfTie ++ [sampleOtherTool]) "stern" = toolRows dfTie "stern"
    ∧ scenarioToolRows (dfTie ++ [sampleOtherTool]) "s1" "wake"
        = scenarioToolRows dfTie "s1" "wake"
    ∧ overallStatsLines (dfTie ++ [sampleOtherTool]) = overallStatsLines dfTie
    ∧ dataQualityLines (dfTie ++ [sampleOtherTool])
        = ["- **Total data points:** " ++ toString (dfTie.length + 1),
           "- **Wake data points:** " ++ toString (toolRows dfTie "wake").length,
           "- **Stern data points:** " ++ toString (toolRows dfTie "stern").length,
           "- **Scenarios tested:** "
             ++ toString (uniqueScenarios (dfTie ++ [sampleOtherTool])).length] := by
  obtain ⟨a, b, c, d, -, -, -, h⟩ :=
    c4_unrecognized_tool dfTie sampleOtherTool (by decide) (by decide)
  exact ⟨a, b, (c "s1").1, d, h⟩

/-- Counting matches across a flatMap is summing the per-block counts. -/
lemma countP_flatMap_eq_sum {α β : Type} (f : α → List β) (p : β → Bool) :
    ∀ l : List α, ((l.flatMap f).countP p) = (l.map (fun a => (f a).countP p)).sum := by
  intro l
  induction l with
  | nil => simp
  | cons a l ih => simp [List.flatMap_cons, List.countP_append, ih]

/-- The count, over a duplicate-free list of tools, of produced summary
entries matching one target (scenario, tool) pair: `1` exactly when the
block scenario is the target scenario, the target tool is in the list, and
the pair has matching rows. -/
lemma countP_filterMap_tools (df : List Sample) (s' s t : String) :
    ∀ ts : List String, ts.Nodup →
      ((ts.filterMap (fun t' => mkSummaryEntry df s' t')).countP
          (fun row => row.scenario == s && row.tool == t))
        = if s' = s ∧ t ∈ ts ∧ (scenarioToolRows df s t).isEmpty = false then 1 else 0 := by
  intro ts
  induction ts with
  | nil => simp
  | cons a ts ih =>
    intro hnd
    rcases List.nodup_cons.mp hnd with ⟨hna, hnd'⟩
    rcases h : mkSummaryEntry df s' a with _ | row
    · rw [List.filterMap_cons_none h, ih hnd']
      have hemp : (scenarioToolRows df s' a).isEmpty = true := by
        simpa [mkSummaryEntry_eq_none_iff] using h
      by_cases hs' : s' = s
      · by_cases hta : t = a
        · subst hs'
          subst hta
          simp [hemp]
        · simp [hs', List.mem_cons, hta]
      · simp [hs']
    · rw [List.filterMap_cons_some h, List.countP_cons, ih hnd']
      obtain ⟨hsc, htl, -, -, -, -, -⟩ := mkSummaryEntry_some_fields h
      have hne : (scenarioToolRows df s' a).isEmpty = false := by
        rcases he : (scenarioToolRows df s' a).isEmpty
        · rfl
        · have hnone : mkSummaryEntry df s' a = none :=
            (mkSummaryEntry_eq_none_iff df s' a).mpr (by simpa using he)
          rw [hnone] at h
          exact Option.noConfusion h
      by_cases hs' : s' = s
      · by_cases hta : t = a
        · subst hs'
          subst hta
          have hnonnil : scenarioToolRows df s' t ≠ [] := by simpa using hne
          simp [hsc, htl, hna, hnonnil]
        · simp [hs', List.mem_cons, hta, hsc, htl, Ne.symm hta]
      · simp [hs', hsc]

/-- Summing a one-point indicator over a duplicate-free list. -/
lemma sum_map_indicator (s : String) (c : Prop) [Decidable c] :
    ∀ l : List String, l.Nodup →
      ((l.map (fun s' => if s' = s ∧ c then (1 : Nat) else 0)).sum)
        = if s ∈ l ∧ c then 1 else 0 := by
  intro l
  induction l with
  | nil => simp
  | cons a l ih =>
    intro hnd
    rcases List.nodup_cons.mp hnd with ⟨hna, hnd'⟩
    rw [List.map_cons, List.sum_cons, ih hnd']
    by_cases hc : c
    · by_cases has : a = s
      · subst has
        simp [hc, hna]
      · simp [hc, has, List.mem_cons, Ne.symm has]
    · simp [hc]

/-- C1: on a valid table (every row's tool label is one of the two known
labels), the aggregation emits exactly one summary row for each
(scenario, tool) pair with at least one matching sample, and none for a
pair without matching samples. -/
theorem c1_one_row_per_pair (df : List Sample)
    (hvalid : ∀ r ∈ df, r.tool = "wake" ∨ r.tool = "stern") (s t : String) :
    ((create_performance_summary df).countP (fun row => row.scenario == s && row.tool == t))
      = if (scenarioToolRows df s t).isEmpty then 0 else 1 := by
  rw [create_performance_summary, countP_flatMap_eq_sum]
  have hmap : (uniqueScenarios df).map
      (fun s' => ((toolOrder.filterMap (fun t' => mkSummaryEntry df s' t')).countP
        (fun row => row.scenario == s && row.tool == t)))
      = (uniqueScenarios df).map
        (fun s' => if s' = s ∧ t ∈ toolOrder ∧ (scenarioToolRows df s t).isEmpty = false
                   then 1 else 0) := by
    apply List.map_congr_left
    intro s' _
    exact countP_filterMap_tools df s' s t toolOrder (by decide)
  rw [hmap, sum_map_indicator s _ (uniqueScenarios df) (nodup_uniqueFirstSeen _)]
  by_cases he : (scenarioToolRows df s t).isEmpty
  · simp [he]
  · have he' : (scenarioToolRows df s t).isEmpty = false := by simpa using he
    obtain ⟨r, hr⟩ : ∃ r, r ∈ scenarioToolRows df s t :=
      List.exists_mem_of_ne_nil _ (by simpa using he')
    rcases List.mem_filter.mp hr with ⟨hrdf, hp⟩
    have hps : r.scenario = s ∧ r.tool = t := by simpa using hp
    have hsmem : s ∈ uniqueScenarios df := by
      rw [uniqueScenarios]
      exact mem_uniqueFirstSeen.mpr (List.mem_map.mpr ⟨r, hrdf, hps.1⟩)
    have htool : t ∈ toolOrder := by
      rcases hvalid r hrdf with h | h <;> simp [toolOrder, ← hps.2, h]
    simp [he', hsmem, htool, he]

/-- C1 witness: the theorem applied to the concrete table `dfTie` at the
pair (`s1`, `wake`), which has a matching sample. -/
theorem c1_one_row_per_pair_witness :
    ((create_performance_summary dfTie).countP
        (fun row => row.scenario == "s1" && row.tool == "wake"))
      = if (scenarioToolRows dfTie "s1" "wake").isEmpty then 0 else 1 :=
  c1_one_row_per_pair dfTie (by decide) "s1" "wake"


/-- The first-seen deduplication is strictly ordered by first-occurrence
position in the original list. -/
lemma pairwise_indexOf_uniqueFirstSeen :
    ∀ l : List String, (uniqueFirstSeen l).Pairwise (fun a b => l.indexOf a < l.indexOf b)
  | [] => by simp [uniqueFirstSeen]
  | x :: xs => by
    rw [uniqueFirstSeen]
    refine List.Pairwise.cons ?_ ?_
    · intro b hb
      rcases List.mem_filter.mp hb with ⟨-, hbx⟩
      rw [List.indexOf_cons_self, List.indexOf_cons_ne _ (fun h => (bne_iff_ne.mp hbx) h.symm)]
      exact Nat.succ_pos _
    · refine (List.Pairwise.filter _ (pairwise_indexOf_uniqueFirstSeen xs)).imp_of_mem ?_
      intro a b ha hb hab
      rcases List.mem_filter.mp ha with ⟨-, hax⟩
      rcases List.mem_filter.mp hb with ⟨-, hbx⟩
      rw [List.indexOf_cons_ne _ (fun h => (bne_iff_ne.mp hax) h.symm),
          List.indexOf_cons_ne _ (fun h => (bne_iff_ne.mp hbx) h.symm)]
      exact Nat.succ_lt_succ hab

/-- Within one scenario's block the produced entries share the scenario and
come in the fixed tool order: when both tools produce an entry, the wake
entry precedes the stern entry. -/
lemma block_pairwise (df : List Sample) (s' : String) :
    (toolOrder.filterMap (fun t => mkSummaryEntry df s' t)).Pairwise
      (fun r1 r2 => r1.scenario = r2.scenario ∧ r1.tool = "wake" ∧ r2.tool = "stern") := by
  rcases hW : mkSummaryEntry df s' "wake" with _ | rW <;>
    rcases hS : mkSummaryEntry df s' "stern" with _ | rS <;>
      simp [toolOrder, List.filterMap_cons, hW, hS]
  obtain ⟨hW1, hW2, -, -, -, -, -⟩ := mkSummaryEntry_some_fields hW
  obtain ⟨hS1, hS2, -, -, -, -, -⟩ := mkSummaryEntry_some_fields hS
  exact ⟨hW1.trans hS1.symm, hW2, hS2⟩

/-- A pairwise property transfers from blocks and block order to the
flattening. -/
lemma pairwise_flatMap {α β : Type} {R : β → β → Prop} {f : α → List β} :
    ∀ {l : List α}, (∀ a ∈ l, (f a).Pairwise R) →
      l.Pairwise (fun a b => ∀ x ∈ f a, ∀ y ∈ f b, R x y) →
      (l.flatMap f).Pairwise R := by
  intro l
  induction l with
  | nil => simp
  | cons a l ih =>
    intro h1 h2
    rw [List.flatMap_cons, List.pairwise_append]
    rcases List.pairwise_cons.mp h2 with ⟨hcross, h2'⟩
    refine ⟨h1 a (by simp), ih (fun b hb => h1 b (by simp [hb])) h2', ?_⟩
    intro x hx y hy
    rcases List.mem_flatMap.mp hy with ⟨b, hb, hyb⟩
    exact hcross b hb x hx y hyb

/-- C8: the aggregation's output is ordered by the position at which each
row's scenario first appears in the input table, and inside one scenario by
the fixed tool order — a wake entry before a stern entry. -/
theorem c8_summary_order (df : List Sample) :
    (create_performance_summary df).Pairwise (fun r1 r2 =>
      scenarioFirstIdx df r1.scenario < scenarioFirstIdx df r2.scenario
      ∨ (r1.scenario = r2.scenario ∧ r1.tool = "wake" ∧ r2.tool = "stern")) := by
  rw [create_performance_summary]
  apply pairwise_flatMap
  · intro s' _
    exact (block_pairwise df s').imp (fun h => Or.inr h)
  · refine (pairwise_indexOf_uniqueFirstSeen (df.map Sample.scenario)).imp_of_mem ?_
    intro s1 s2 hs1 hs2 hlt x hx y hy
    have hxs : x.scenario = s1 := by
      rcases List.mem_filterMap.mp hx with ⟨t, -, hmk⟩
      exact (mkSummaryEntry_some_fields hmk).1
    have hys : y.scenario = s2 := by
      rcases List.mem_filterMap.mp hy with ⟨t, -, hmk⟩
      exact (mkSummaryEntry_some_fields hmk).1
    left
    rw [scenarioFirstIdx, scenarioFirstIdx, hxs, hys]
    exact hlt
